import Mathlib

/-!
Verification of the reconciliation/classification core of the
Formula-1-Predictor repository (`Data_extraction.py`).

Part A models `calculate_points_per_round` (the time-shifted join over a
standings table) together with the in-place lookup-key columns it adds to the
caller's dataframe.  Part B models `get_weather_info` (the cascading weather
extraction over the first four HTML tables of a page with a rendered-page
fallback, the `not found` sentinel, and the keyword one-hot classification).
-/

/-- One row of a standings table as consumed by `calculate_points_per_round`:
a season, an entity identifier (driver or constructor, the `team` column
argument), a round number and the value of the chosen metric column
(`points`).  Metric values are modelled as rationals standing for the
floating-point numbers of the source. -/
structure StandingsRow where
  season : Int
  entity : String
  round : Int
  value : Rat
deriving DecidableEq, Repr

/-- `df['lookup1'] = df.season.astype(str) + df[team] + df['round'].astype(str)`:
the key of a row itself, built by string concatenation. -/
def lookup1 (r : StandingsRow) : String :=
  toString r.season ++ r.entity ++ toString r.round

/-- `df['lookup2'] = df.season.astype(str) + df[team] + (df['round']-1).astype(str)`:
the key of the previous round of the same season and entity, built by string
concatenation. -/
def lookup2 (r : StandingsRow) : String :=
  toString r.season ++ r.entity ++ toString (r.round - 1)

/-- One row of the dataframe returned by `calculate_points_per_round` after the
drop/rename steps: the original season, entity and round, the row's own metric
value renamed to `points_after_race` (it was `points_x` in the merge), and the
matched previous-round metric value renamed to `points` (it was `points_y`,
with `NaN` filled by `0`). -/
structure ShiftedRow where
  season : Int
  entity : String
  round : Int
  value_after_race : Rat
  value : Rat
deriving DecidableEq, Repr

/-- The rows of the right-hand table `df[['lookup1', points]]` whose `lookup1`
equals the given left-hand row's `lookup2` — the match set of the pandas left
merge for that left row. -/
def mergeMatches (table : List StandingsRow) (r : StandingsRow) : List StandingsRow :=
  table.filter (fun t => lookup1 t == lookup2 r)

/-- The output rows a single left-hand row contributes to
`df.merge(df[['lookup1', points]], how='left', left_on='lookup2', right_on='lookup1')`:
one row per matching right-hand row carrying that row's metric value, or a
single row with the (`fillna(0)`-filled) value `0` when nothing matches. -/
def mergeRow (table : List StandingsRow) (r : StandingsRow) : List ShiftedRow :=
  if mergeMatches table r = [] then
    [⟨r.season, r.entity, r.round, r.value, 0⟩]
  else
    (mergeMatches table r).map (fun t => ⟨r.season, r.entity, r.round, r.value, t.value⟩)

/-- `calculate_points_per_round` of `Data_extraction.py`, value-level result:
the left merge of the table with its own `(lookup1, points)` projection on
`lookup2 = lookup1`, after dropping the key columns, renaming `points_x` to
`points_after_race` and `points_y` to `points`, and filling the missing
previous-round values with `0`. -/
def calculate_points_per_round (table : List StandingsRow) : List ShiftedRow :=
  table.flatMap (mergeRow table)

/-- The caller-visible state of the input dataframe: its rows together with
the `lookup1` and `lookup2` columns when those exist (`none` before they are
ever assigned). -/
structure StandingsDF where
  rows : List StandingsRow
  lookup1Col : Option (List String)
  lookup2Col : Option (List String)
deriving DecidableEq, Repr

/-- `calculate_points_per_round` with the mutation of the caller's dataframe
made explicit: the two key-column assignments write `lookup1` and `lookup2`
columns into the input dataframe itself (only `new_df`, the merge result, gets
the later `drop`), and the returned table is the merged one. -/
def calculate_points_per_round_run (df : StandingsDF) : StandingsDF × List ShiftedRow :=
  ({ rows := df.rows
     lookup1Col := some (df.rows.map lookup1)
     lookup2Col := some (df.rows.map lookup2) },
   calculate_points_per_round df.rows)

/-- The rows of the table are uniquely keyed by the (season, entity, round)
triple: no two distinct positions carry the same triple. -/
def UniquelyKeyed (table : List StandingsRow) : Prop :=
  table.Pairwise (fun a b => ¬ (a.season = b.season ∧ a.entity = b.entity ∧ a.round = b.round))

instance (table : List StandingsRow) : Decidable (UniquelyKeyed table) := by
  unfold UniquelyKeyed
  exact List.instDecidablePairwise table

/-- The concatenated keys of the table are collision-free: a right-hand row's
`lookup1` string equals a left-hand row's `lookup2` string only when the
underlying triples are really (season, entity, round-1) siblings. -/
def CollisionFree (table : List StandingsRow) : Prop :=
  ∀ t ∈ table, ∀ r ∈ table, lookup1 t = lookup2 r →
    t.season = r.season ∧ t.entity = r.entity ∧ t.round = r.round - 1

instance (table : List StandingsRow) : Decidable (CollisionFree table) := by
  unfold CollisionFree
  exact List.decidableBAll _ table

/-- The first row of the table carrying the given (season, entity, round)
triple, if any: the previous-round record the specification's join is meant to
find. -/
def findByKey (table : List StandingsRow) (s : Int) (e : String) (r : Int) :
    Option StandingsRow :=
  table.find? (fun t => t.season == s && t.entity == e && t.round == r)

/-- The property claimed of the join output for one input row: some output row
reproduces the row's triple, carries the row's own metric value in the
`points_after_race` column, and carries the (season, entity, round-1) record's
metric value — or `0` when no such record exists — in the `points` column. -/
def ShiftSpecAt (table : List StandingsRow) (r : StandingsRow) : Prop :=
  ∃ out ∈ calculate_points_per_round table,
    out.season = r.season ∧ out.entity = r.entity ∧ out.round = r.round ∧
    out.value_after_race = r.value ∧
    out.value = (match findByKey table r.season r.entity (r.round - 1) with
                 | some t => t.value
                 | none => 0)

instance (table : List StandingsRow) (r : StandingsRow) :
    Decidable (ShiftSpecAt table r) := by
  unfold ShiftSpecAt
  exact List.decidableBEx _ (calculate_points_per_round table)

example :
    calculate_points_per_round
      [⟨2022, "leclerc", 1, 25⟩, ⟨2022, "leclerc", 2, 43⟩] =
      [⟨2022, "leclerc", 1, 25, 0⟩, ⟨2022, "leclerc", 2, 43, 25⟩] := by decide

example :
    (calculate_points_per_round
      [⟨2022, "a", 1, 1⟩, ⟨2022, "a", 1, 2⟩, ⟨2022, "a", 2, 3⟩]).length = 4 := by decide

example : lookup1 ⟨2, "2e", 1, 5⟩ = lookup1 ⟨22, "e", 1, 10⟩ := by decide

example :
    UniquelyKeyed [⟨2, "2e", 1, 5⟩, ⟨22, "e", 2, 7⟩] ∧
    ¬ ShiftSpecAt [⟨2, "2e", 1, 5⟩, ⟨22, "e", 2, 7⟩] ⟨22, "e", 2, 7⟩ := by decide

/-- An HTML table as `pd.read_html` delivers it to `get_weather_info`: a list
of rows, each carrying its first two cells (`iloc[:, 0]` and `iloc[n, 1]` are
the only cells the code reads). -/
abbrev HtmlTable := List (String × String)

/-- The observable behaviour of one race's Wikipedia page: what
`pd.read_html(link)` produces (its table list, or the exception it raises),
and what the whole Selenium block (open page, click `Italiano`, read the fixed
XPath cell) produces (a text, or the exception it raises). -/
structure Page where
  tables : Except String (List HtmlTable)
  selenium : Except String String

/-- Outcome of the `for i in range(4)` scan: a value found next to a `Weather`
row, fall-through to the loop's `else` clause, or an exception (raised by
`pd.read_html(link)[i]` when the page has fewer than `i+1` tables). -/
inductive Stage1Result where
  | found (v : String)
  | exhausted
  | error
deriving DecidableEq, Repr

/-- The body of `for i in range(4)` over the remaining indices: index table
`i` (raising when it is out of range), return the second cell of the first row
whose first cell is exactly `'Weather'`, and otherwise continue; an empty
index list means the loop finished without `break`. -/
def stage1Loop (tables : List HtmlTable) : List Nat → Stage1Result
  | [] => .exhausted
  | i :: rest =>
    match tables[i]? with
    | none => .error
    | some t =>
      match t.find? (fun row => row.fst == "Weather") with
      | some row => .found row.snd
      | none => stage1Loop tables rest

/-- The structured-table scan of `get_weather_info`: the loop above over the
indices `0, 1, 2, 3`. -/
def stage1 (tables : List HtmlTable) : Stage1Result :=
  stage1Loop tables [0, 1, 2, 3]

/-- One iteration of the `for link in df['url']` loop: the `try` block runs
the structured-table scan, the loop's `else` clause runs the Selenium
fallback, and the `except` arm turns any exception — from `pd.read_html`
itself, from out-of-range indexing inside the scan, or from the Selenium
block — into the sentinel `'not found'`. -/
def extractWeather (page : Page) : String :=
  match page.tables with
  | .error _ => "not found"
  | .ok tables =>
    match stage1 tables with
    | .found v => v
    | .error => "not found"
    | .exhausted =>
      match page.selenium with
      | .ok v => v
      | .error _ => "not found"

/-- `x.lower()` at the character level (the code only ever feeds ASCII
keyword comparisons). -/
def lowerChars (s : String) : List Char := s.data.map Char.toLower

/-- Python's `str.split()` with no argument: split on runs of whitespace and
drop empty tokens; the second argument accumulates the current token in
reverse. -/
def splitWs : List Char → List Char → List String
  | [], acc => if acc.isEmpty then [] else [String.mk acc.reverse]
  | c :: rest, acc =>
    if c.isWhitespace then
      (if acc.isEmpty then splitWs rest [] else String.mk acc.reverse :: splitWs rest [])
    else splitWs rest (c :: acc)

/-- `x.lower().split()`. -/
def pyTokens (s : String) : List String := splitWs (lowerChars s) []

/-- The `weather_dict` keyword table of `get_weather_info`, one entry per
label column. -/
def weather_dict : List (String × List String) :=
  [("weather_warm", ["soleggiato", "clear", "warm", "hot", "sunny", "fine", "mild", "sereno"]),
   ("weather_cold", ["cold", "fresh", "chilly", "cool"]),
   ("weather_dry", ["dry", "asciutto"]),
   ("weather_wet", ["showers", "wet", "rain", "pioggia", "damp", "thunderstorms", "rainy"]),
   ("weather_cloudy", ["overcast", "nuvoloso", "clouds", "cloudy", "grey", "coperto"])]

/-- The one-hot map applied to each label column:
`1 if any(i in weather_dict[col] for i in x.lower().split()) else 0`, with
`true` standing for `1`. -/
def weatherFlag (keywords : List String) (x : String) : Bool :=
  (pyTokens x).any (fun i => keywords.contains i)

/-- The five label columns of `weather_df` for one raw weather text. -/
structure WeatherLabels where
  weather_warm : Bool
  weather_cold : Bool
  weather_dry : Bool
  weather_wet : Bool
  weather_cloudy : Bool
deriving DecidableEq, Repr

/-- All five one-hot columns evaluated on one raw weather text, in the order
of `weather_dict`. -/
def classify (x : String) : WeatherLabels :=
  ⟨weatherFlag ["soleggiato", "clear", "warm", "hot", "sunny", "fine", "mild", "sereno"] x,
   weatherFlag ["cold", "fresh", "chilly", "cool"] x,
   weatherFlag ["dry", "asciutto"] x,
   weatherFlag ["showers", "wet", "rain", "pioggia", "damp", "thunderstorms", "rainy"] x,
   weatherFlag ["overcast", "nuvoloso", "clouds", "cloudy", "grey", "coperto"] x⟩

/-- One race reference of the input dataframe: its first three columns
(`season`, `round`, `circuit_id`, taken by `df.iloc[:, [0, 1, 2]]`) and the
page its `url` column points at. -/
structure RaceRef where
  season : Int
  round : Int
  circuit_id : String
  page : Page

/-- One row of the `weather_info` result: the three race columns, the raw
`weather` text column, and the five one-hot columns. -/
structure WeatherRow where
  season : Int
  round : Int
  circuit_id : String
  weather : String
  labels : WeatherLabels
deriving DecidableEq, Repr

/-- `get_weather_info`: for every race reference, run the extraction cascade
on its page, keep the raw text in the `weather` column and attach the one-hot
label columns. -/
def get_weather_info (races : List RaceRef) : List WeatherRow :=
  races.map (fun r =>
    ⟨r.season, r.round, r.circuit_id, extractWeather r.page,
     classify (extractWeather r.page)⟩)

/-- The column order of the dataframe built by `extract_race_rounds` (the
insertion order of its `race_dict`), which is what `get_weather_info` slices
with `df.iloc[:, [0, 1, 2]]`. -/
def races_columns : List String :=
  ["season", "round", "circuit_id", "lat", "long", "country", "date", "url"]

/-- The column list of the returned `weather_info` dataframe:
`pd.concat([weather, weather_df], axis=1)` where `weather` is the three-column
slice of the races dataframe plus the assigned raw `weather` column, and
`weather_df` has the `weather_dict` keys as columns. -/
def weather_info_columns : List String :=
  races_columns.take 3 ++ ["weather"] ++ weather_dict.map Prod.fst

/-- All three cascade stages fail for this page: `pd.read_html` raises, or
the table scan raises an index error, or the scan exhausts all four tables
and the Selenium block raises. -/
def AllStagesFail (p : Page) : Prop :=
  (∃ e, p.tables = .error e) ∨
  (∃ ts, p.tables = .ok ts ∧ stage1 ts = .error) ∨
  (∃ ts e, p.tables = .ok ts ∧ stage1 ts = .exhausted ∧ p.selenium = .error e)

example : classify "Sunny and dry" = ⟨true, false, true, false, false⟩ := by decide

example : classify "not found" = ⟨false, false, false, false, false⟩ := by decide

example :
    extractWeather ⟨.ok [[("Race", "x")]], .ok "sunny"⟩ = "not found" := by decide

example :
    extractWeather ⟨.ok [[("Race", "x")], [], [], [("Weather", "Rainy")]], .error "no driver"⟩ =
      "Rainy" := by decide

example : weather_info_columns.length = 9 := by decide

/-- Equal (season, entity, round-1) components give equal concatenated keys:
the congruence direction of the key encoding. -/
lemma lookup1_eq_lookup2_of_components (t r : StandingsRow)
    (hs : t.season = r.season) (he : t.entity = r.entity)
    (hr : t.round = r.round - 1) : lookup1 t = lookup2 r := by
  unfold lookup1 lookup2
  rw [hs, he, hr]

/-- C1.  The claim quantifies over every uniquely-keyed table, but the lookup
keys are built by string concatenation, which collides: in the table
`[(2, "2e", 1, 5), (22, "e", 2, 7)]` both triples are distinct, yet the key of
`(2, "2e", 1)` is the string `"22e1"`, which is exactly the previous-round key
of `(22, "e", 2)`.  Round 2 of `(22, "e")` therefore receives the metric value
`5` of a foreign row although no round-1 row for `(22, "e")` exists, where the
claim requires `0`. -/
theorem C1_counterexample :
    UniquelyKeyed [⟨2, "2e", 1, 5⟩, ⟨22, "e", 2, 7⟩] ∧
    (⟨22, "e", 2, 7⟩ : StandingsRow) ∈ [⟨2, "2e", 1, 5⟩, ⟨22, "e", 2, 7⟩] ∧
    ¬ ShiftSpecAt [⟨2, "2e", 1, 5⟩, ⟨22, "e", 2, 7⟩] ⟨22, "e", 2, 7⟩ := by decide

/-- C1 (amended).  On every table whose concatenated keys are collision-free
(and whose rows are uniquely keyed by the triple), `calculate_points_per_round`
produces for each input row an output row with the row's triple, its own
metric value in the `points_after_race` column, and the (season, entity,
round-1) record's value — `0` when absent — in the `points` column. -/
theorem C1_shift_join_correct (table : List StandingsRow)
    (hcf : CollisionFree table) (_huk : UniquelyKeyed table) :
    ∀ r ∈ table, ShiftSpecAt table r := by
  intro r hr
  unfold ShiftSpecAt
  rcases hfind : findByKey table r.season r.entity (r.round - 1) with _ | t0
  · have hnone := List.find?_eq_none.mp hfind
    have hmm : mergeMatches table r = [] := by
      unfold mergeMatches
      rw [List.filter_eq_nil_iff]
      intro t ht hbeq
      have heq : lookup1 t = lookup2 r := by simpa using hbeq
      obtain ⟨hs, he, hr'⟩ := hcf t ht r hr heq
      exact hnone t ht (by simp [hs, he, hr'])
    refine ⟨⟨r.season, r.entity, r.round, r.value, 0⟩, ?_, rfl, rfl, rfl, rfl, ?_⟩
    · unfold calculate_points_per_round
      rw [List.mem_flatMap]
      refine ⟨r, hr, ?_⟩
      unfold mergeRow
      rw [if_pos hmm]
      exact List.mem_singleton.mpr rfl
    · simp
  · have hmem : t0 ∈ table := List.mem_of_find?_eq_some hfind
    have hpred := List.find?_some hfind
    simp only [Bool.and_eq_true, beq_iff_eq] at hpred
    obtain ⟨⟨hs, he⟩, hr'⟩ := hpred
    have hkey : lookup1 t0 = lookup2 r :=
      lookup1_eq_lookup2_of_components t0 r hs he hr'
    have hin : t0 ∈ mergeMatches table r :=
      List.mem_filter.mpr ⟨hmem, by simp [hkey]⟩
    have hne : mergeMatches table r ≠ [] := by
      intro hnil
      rw [hnil] at hin
      cases hin
    refine ⟨⟨r.season, r.entity, r.round, r.value, t0.value⟩, ?_, rfl, rfl, rfl, rfl, ?_⟩
    · unfold calculate_points_per_round
      rw [List.mem_flatMap]
      refine ⟨r, hr, ?_⟩
      unfold mergeRow
      rw [if_neg hne]
      exact List.mem_map.mpr ⟨t0, hin, rfl⟩
    · simp

/-- C1 (witness).  The specification's own end-to-end scenario: the two-round
Leclerc table is collision-free and uniquely keyed, and every row satisfies
the shifted-join property. -/
theorem C1_shift_join_correct_witness :
    CollisionFree [⟨2022, "leclerc", 1, 25⟩, ⟨2022, "leclerc", 2, 43⟩] ∧
    UniquelyKeyed [⟨2022, "leclerc", 1, 25⟩, ⟨2022, "leclerc", 2, 43⟩] ∧
    ∀ r ∈ ([⟨2022, "leclerc", 1, 25⟩, ⟨2022, "leclerc", 2, 43⟩] : List StandingsRow),
      ShiftSpecAt [⟨2022, "leclerc", 1, 25⟩, ⟨2022, "leclerc", 2, 43⟩] r :=
  ⟨by decide, by decide,
   C1_shift_join_correct _ (by decide) (by decide)⟩

/-- C2.  Row count is not preserved for every input table: with a duplicated
(season, entity, round) key in the table, the row of round 2 matches both
round-1 rows in the left merge, so 3 input rows fan out to 4 output rows. -/
theorem C2_counterexample :
    (calculate_points_per_round
        [⟨2022, "a", 1, 1⟩, ⟨2022, "a", 1, 2⟩, ⟨2022, "a", 2, 3⟩]).length ≠
      ([⟨2022, "a", 1, 1⟩, ⟨2022, "a", 1, 2⟩, ⟨2022, "a", 2, 3⟩] :
        List StandingsRow).length := by decide

/-- Each left-hand row of the table has at most one `lookup1` match for its
`lookup2` key — the condition under which a pandas left merge is one-to-one. -/
def RightKeysUnique (table : List StandingsRow) : Prop :=
  ∀ r ∈ table, (mergeMatches table r).length ≤ 1

instance (table : List StandingsRow) : Decidable (RightKeysUnique table) := by
  unfold RightKeysUnique
  exact List.decidableBAll _ table

/-- A left-hand row with at most one match contributes exactly one output
row. -/
lemma mergeRow_length_one (table : List StandingsRow) (r : StandingsRow)
    (h : (mergeMatches table r).length ≤ 1) : (mergeRow table r).length = 1 := by
  unfold mergeRow
  by_cases hc : mergeMatches table r = []
  · rw [if_pos hc]
    rfl
  · rw [if_neg hc, List.length_map]
    have hpos : 0 < (mergeMatches table r).length := List.length_pos.mpr hc
    omega

/-- C2 (amended).  The left merge preserves the row count exactly when each
row's `lookup2` key matches at most one `lookup1` key in the table; with
duplicate or colliding concatenated keys the join fans out instead. -/
theorem C2_row_count (table : List StandingsRow) (h : RightKeysUnique table) :
    (calculate_points_per_round table).length = table.length := by
  unfold calculate_points_per_round
  rw [List.length_flatMap]
  have hmap : List.map (List.length ∘ mergeRow table) table =
      List.map (fun _ => 1) table := by
    apply List.map_congr_left
    intro r hrmem
    exact mergeRow_length_one table r (h r hrmem)
  rw [hmap]
  simp

/-- C2 (witness).  The Leclerc table has unique right-hand keys and its output
row count equals its input row count. -/
theorem C2_row_count_witness :
    RightKeysUnique [⟨2022, "leclerc", 1, 25⟩, ⟨2022, "leclerc", 2, 43⟩] ∧
    (calculate_points_per_round
        [⟨2022, "leclerc", 1, 25⟩, ⟨2022, "leclerc", 2, 43⟩]).length =
      ([⟨2022, "leclerc", 1, 25⟩, ⟨2022, "leclerc", 2, 43⟩] :
        List StandingsRow).length :=
  ⟨by decide, C2_row_count _ (by decide)⟩

/-- C3.  The concatenated keys collide: the rows `(2, "2e", 1)` and
`(22, "e", 1)` have different seasons and entities yet the same `lookup1`
string `"22e1"`, and even the specification's own example pair — season 22
round 1 against season 2 round 21 — collides once the entity id is the string
`"2"` (both keys are `"2221"`). -/
theorem C3_counterexample :
    (lookup1 ⟨2, "2e", 1, 0⟩ = lookup1 ⟨22, "e", 1, 0⟩ ∧
      (⟨2, "2e", 1, 0⟩ : StandingsRow).season ≠ (⟨22, "e", 1, 0⟩ : StandingsRow).season) ∧
    (lookup1 ⟨22, "2", 1, 0⟩ = lookup1 ⟨2, "2", 21, 0⟩ ∧
      (⟨22, "2", 1, 0⟩ : StandingsRow).round ≠ (⟨2, "2", 21, 0⟩ : StandingsRow).round) := by
  decide

/-- C3 (amended).  Only the congruence direction of the key contract holds:
equal (season, entity_id, round) components always give equal `lookup1` and
`lookup2` strings, but key equality does not imply component equality, since
string concatenation admits collisions between distinct triples. -/
theorem C3_key_congruence :
    ∀ r1 r2 : StandingsRow, r1.season = r2.season → r1.entity = r2.entity →
      r1.round = r2.round → lookup1 r1 = lookup1 r2 ∧ lookup2 r1 = lookup2 r2 := by
  intro r1 r2 hs he hr
  unfold lookup1 lookup2
  rw [hs, he, hr]
  exact ⟨rfl, rfl⟩

/-- C3 (witness).  Two rows with the same triple but different metric values
get the same keys. -/
theorem C3_key_congruence_witness :
    lookup1 ⟨2022, "leclerc", 1, 25⟩ = lookup1 ⟨2022, "leclerc", 1, 99⟩ ∧
    lookup2 ⟨2022, "leclerc", 1, 25⟩ = lookup2 ⟨2022, "leclerc", 1, 99⟩ :=
  C3_key_congruence ⟨2022, "leclerc", 1, 25⟩ ⟨2022, "leclerc", 1, 99⟩ rfl rfl rfl

/-- C4.  The classifier lower-cases, splits on whitespace, and sets each label
column true exactly when some token is literally one of that column's
keywords; on `"Sunny and dry"` this yields warm and dry true and the other
three labels false. -/
theorem C4_classifier_keyword_match :
    classify "Sunny and dry" = ⟨true, false, true, false, false⟩ ∧
    ∀ x : String,
      ((classify x).weather_warm ↔ ∃ t ∈ pyTokens x,
        t ∈ ["soleggiato", "clear", "warm", "hot", "sunny", "fine", "mild", "sereno"]) ∧
      ((classify x).weather_cold ↔ ∃ t ∈ pyTokens x,
        t ∈ ["cold", "fresh", "chilly", "cool"]) ∧
      ((classify x).weather_dry ↔ ∃ t ∈ pyTokens x, t ∈ ["dry", "asciutto"]) ∧
      ((classify x).weather_wet ↔ ∃ t ∈ pyTokens x,
        t ∈ ["showers", "wet", "rain", "pioggia", "damp", "thunderstorms", "rainy"]) ∧
      ((classify x).weather_cloudy ↔ ∃ t ∈ pyTokens x,
        t ∈ ["overcast", "nuvoloso", "clouds", "cloudy", "grey", "coperto"]) := by
  constructor
  · decide
  · intro x
    simp [classify, weatherFlag, List.any_eq_true, List.contains, List.elem_iff]

/-- C7.  The sentinel text `"not found"` classifies to all-false (neither
token is a keyword), and any text without tokens — the empty string in
particular — also classifies to all-false instead of raising. -/
theorem C7_unclassifiable_all_false :
    classify "not found" = ⟨false, false, false, false, false⟩ ∧
    ∀ x : String, pyTokens x = [] →
      classify x = ⟨false, false, false, false, false⟩ := by
  constructor
  · decide
  · intro x h
    simp [classify, weatherFlag, h]

/-- C7 (witness).  The empty string has no tokens and classifies to
all-false. -/
theorem C7_unclassifiable_all_false_witness :
    pyTokens "" = [] ∧ classify "" = ⟨false, false, false, false, false⟩ :=
  ⟨by decide, C7_unclassifiable_all_false.2 "" (by decide)⟩

/-- C8.  The call is not side-effect-free: starting from a dataframe without
key columns, the caller's dataframe comes back with `lookup1` and `lookup2`
columns written into it. -/
theorem C8_counterexample :
    (calculate_points_per_round_run ⟨[⟨2022, "leclerc", 1, 25⟩], none, none⟩).1 ≠
      ⟨[⟨2022, "leclerc", 1, 25⟩], none, none⟩ := by decide

/-- C8 (amended).  `calculate_points_per_round` adds the `lookup1` and
`lookup2` key columns to the caller's input dataframe in place (their values
being the concatenated keys of each row); the rows of the original columns are
unchanged and the merge result is returned as a separate table. -/
theorem C8_mutates_input_with_key_columns :
    ∀ df : StandingsDF,
      (calculate_points_per_round_run df).1.rows = df.rows ∧
      (calculate_points_per_round_run df).1.lookup1Col = some (df.rows.map lookup1) ∧
      (calculate_points_per_round_run df).1.lookup2Col = some (df.rows.map lookup2) ∧
      (calculate_points_per_round_run df).2 = calculate_points_per_round df.rows :=
  fun _ => ⟨rfl, rfl, rfl, rfl⟩

/-- C9.  The produced weather table is not limited to the three race columns
plus the five label columns: the raw `weather` text column survives into the
result (nine columns in total, as the code's own comment says). -/
theorem C9_counterexample :
    "weather" ∈ weather_info_columns ∧
    weather_info_columns ≠
      ["season", "round", "circuit_id", "weather_warm", "weather_cold",
       "weather_dry", "weather_wet", "weather_cloudy"] := by decide

/-- C9 (amended).  The weather table has exactly the columns season, round,
circuit_id, the raw `weather` text and the five label columns, in that order,
with one row per race reference. -/
theorem C9_weather_table_columns :
    weather_info_columns =
      ["season", "round", "circuit_id", "weather", "weather_warm",
       "weather_cold", "weather_dry", "weather_wet", "weather_cloudy"] ∧
    ∀ races : List RaceRef, (get_weather_info races).length = races.length := by
  constructor
  · decide
  · intro races
    simp [get_weather_info]

/-- C5.  An exception inside stage 1 does not advance the cascade: on a page
with a single table and no `Weather` row, indexing table 1 raises, the
per-race handler records the sentinel, and the Selenium fallback — which
would have returned `"sunny"` — is never attempted. -/
theorem C5_counterexample :
    stage1 [[("Race", "x")]] = .error ∧
    extractWeather ⟨.ok [[("Race", "x")]], .ok "sunny"⟩ = "not found" ∧
    extractWeather ⟨.ok [[("Race", "x")]], .ok "sunny"⟩ ≠ "sunny" := by decide

/-- C5 (amended).  An exception raised inside the stage-1 table scan is caught
by the per-race handler and recorded directly as the sentinel, skipping
stage 2; the rendered-page fallback runs only when stage 1 scans all four
tables without an exception and without a match. -/
theorem C5_cascade_on_exception :
    ∀ (p : Page) (ts : List HtmlTable), p.tables = .ok ts →
      (stage1 ts = .error → extractWeather p = "not found") ∧
      (stage1 ts = .exhausted →
        extractWeather p = (match p.selenium with
                            | .ok v => v
                            | .error _ => "not found")) := by
  intro p ts hts
  constructor <;> intro h <;> simp [extractWeather, hts, h]

/-- C5 (witness).  The two branch behaviours at concrete pages: a raising scan
yields the sentinel, and an exhausted scan hands over to the fallback. -/
theorem C5_cascade_on_exception_witness :
    extractWeather ⟨.ok [[("Race", "x")]], .ok "irrelevant"⟩ = "not found" ∧
    extractWeather ⟨.ok [[], [], [], []], .ok "Pioggia"⟩ = "Pioggia" :=
  ⟨(C5_cascade_on_exception ⟨.ok [[("Race", "x")]], .ok "irrelevant"⟩ _ rfl).1
      (by decide),
   (C5_cascade_on_exception ⟨.ok [[], [], [], []], .ok "Pioggia"⟩ _ rfl).2
      (by decide)⟩

/-- A page on which every cascade stage fails maps to the sentinel text. -/
lemma extractWeather_allfail (p : Page) (h : AllStagesFail p) :
    extractWeather p = "not found" := by
  rcases h with ⟨e, he⟩ | ⟨ts, hts, hs⟩ | ⟨ts, e, hts, hs, hsel⟩ <;>
    simp [extractWeather, *]

/-- C6.  A race whose page fails every stage is recorded with the sentinel
`"not found"` raw text, and it does not abort the batch: the races before and
after it are processed exactly as they would be on their own. -/
theorem C6_batch_never_aborts (pre post : List RaceRef) (r : RaceRef)
    (h : AllStagesFail r.page) :
    get_weather_info (pre ++ r :: post) =
      get_weather_info pre ++
        ⟨r.season, r.round, r.circuit_id, "not found", classify "not found"⟩ ::
          get_weather_info post := by
  unfold get_weather_info
  simp only [List.map_append, List.map_cons, extractWeather_allfail r.page h]

/-- C6 (witness).  A batch of a healthy race followed by a race whose
`pd.read_html` raises: the batch completes, the healthy race keeps its data
and the failing race gets the sentinel row. -/
theorem C6_batch_never_aborts_witness :
    AllStagesFail (Page.mk (.error "boom") (.error "boom")) ∧
    get_weather_info
        ([⟨2022, 1, "bahrain", ⟨.ok [[("Weather", "Sunny and dry")]], .error "x"⟩⟩] ++
          (⟨2022, 2, "jeddah", ⟨.error "boom", .error "boom"⟩⟩ : RaceRef) :: []) =
      get_weather_info
          [⟨2022, 1, "bahrain", ⟨.ok [[("Weather", "Sunny and dry")]], .error "x"⟩⟩] ++
        ⟨2022, 2, "jeddah", "not found", classify "not found"⟩ ::
          get_weather_info [] :=
  ⟨Or.inl ⟨"boom", rfl⟩,
   C6_batch_never_aborts _ _ _ (Or.inl ⟨"boom", rfl⟩)⟩

/-- The `for i in range(4)` scan can only return a value when some table holds
a first-column cell that is exactly the string `'Weather'`. -/
lemma stage1Loop_no_weather (tables : List HtmlTable)
    (h : ∀ t ∈ tables, ∀ row ∈ t, row.fst ≠ "Weather") :
    ∀ (idxs : List Nat) (v : String), stage1Loop tables idxs ≠ .found v := by
  intro idxs
  induction idxs with
  | nil =>
    intro v hc
    simp [stage1Loop] at hc
  | cons i rest ih =>
    intro v hc
    cases hg : tables[i]? with
    | none => simp [stage1Loop, hg] at hc
    | some t =>
      cases hf : t.find? (fun row => row.fst == "Weather") with
      | none =>
        simp only [stage1Loop, hg, hf] at hc
        exact ih v hc
      | some rowm =>
        have hmemt : t ∈ tables := by
          rcases List.getElem?_eq_some.mp hg with ⟨hl, he⟩
          exact he ▸ List.getElem_mem hl
        have hmemr : rowm ∈ t := List.mem_of_find?_eq_some hf
        have heq : rowm.fst = "Weather" := by simpa using List.find?_some hf
        exact h t hmemt rowm hmemr heq

/-- C10.  The table scan recognizes a weather row only by exact, case-sensitive
equality of a first-column cell with `'Weather'` — a table set without that
exact cell can never produce a found value — and when a match exists within
the first four tables, the value returned is the adjacent cell of the first
matching row of the earliest matching table. -/
theorem C10_stage1_exact_match :
    (∀ tables : List HtmlTable,
      (∀ t ∈ tables, ∀ row ∈ t, row.fst ≠ "Weather") →
      ∀ v, stage1 tables ≠ .found v) ∧
    (∀ (tables : List HtmlTable) (i : Nat) (t : HtmlTable) (row : String × String),
      i < 4 → tables[i]? = some t →
      (∀ j, j < i → ∀ tj, tables[j]? = some tj →
        tj.find? (fun r => r.fst == "Weather") = none) →
      t.find? (fun r => r.fst == "Weather") = some row →
      stage1 tables = .found row.snd) := by
  constructor
  · intro tables h v
    exact stage1Loop_no_weather tables h [0, 1, 2, 3] v
  · intro tables i t row hi hget hprev hfind
    have hlen : i < tables.length := (List.getElem?_eq_some.mp hget).1
    have hex : ∀ j, j < tables.length → ∃ tj, tables[j]? = some tj := by
      intro j hj
      exact ⟨tables[j], List.getElem?_eq_some.mpr ⟨hj, rfl⟩⟩
    interval_cases i
    · simp [stage1, stage1Loop, hget, hfind]
    · obtain ⟨t0, h0⟩ := hex 0 (by omega)
      have hf0 := hprev 0 (by omega) t0 h0
      simp [stage1, stage1Loop, h0, hf0, hget, hfind]
    · obtain ⟨t0, h0⟩ := hex 0 (by omega)
      obtain ⟨t1, h1⟩ := hex 1 (by omega)
      have hf0 := hprev 0 (by omega) t0 h0
      have hf1 := hprev 1 (by omega) t1 h1
      simp [stage1, stage1Loop, h0, hf0, h1, hf1, hget, hfind]
    · obtain ⟨t0, h0⟩ := hex 0 (by omega)
      obtain ⟨t1, h1⟩ := hex 1 (by omega)
      obtain ⟨t2, h2⟩ := hex 2 (by omega)
      have hf0 := hprev 0 (by omega) t0 h0
      have hf1 := hprev 1 (by omega) t1 h1
      have hf2 := hprev 2 (by omega) t2 h2
      simp [stage1, stage1Loop, h0, hf0, h1, hf1, h2, hf2, hget, hfind]

/-- C10 (witness).  A lower-case `'weather'` cell (and an upper-case one)
never match, while a second table with two `Weather` rows returns the adjacent
cell of its first such row. -/
theorem C10_stage1_exact_match_witness :
    stage1 [[("weather", "lower"), ("WEATHER", "caps")]] ≠ .found "lower" ∧
    stage1 [[("Race", "x")], [("Weather", "Rainy"), ("Weather", "Later")]] =
      .found "Rainy" := by
  constructor
  · exact C10_stage1_exact_match.1 _ (by decide) "lower"
  · refine C10_stage1_exact_match.2 _ 1 _ ("Weather", "Rainy")
      (by decide) rfl ?_ rfl
    intro j hj tj htj
    interval_cases j
    cases htj
    rfl
